import Mathlib

/-!
Verification of the D2Q9 lattice-Boltzmann channel-flow solver
(`lbm_solver.py`).

The distribution field is modelled as a function `ℤ → ℤ → Fin 9 → ℚ`
(cell coordinates, discrete-velocity index).  Real arithmetic of the
source is carried out exactly in `ℚ`.  Array indexing with negative
python indices (`f[-1]`, `f[-2]`) is translated to explicit `Nx - 1`,
`Nx - 2`; `jnp.roll` becomes the mathematical shift with `Int.emod`
wraparound.  Each stage of the `update` function (source lines 62-92)
is a named definition, and `update` is their composition in source
order.
-/

namespace LBM

/-- Distribution field: 9 rational values per cell `(x, y)`. -/
abbrev LField := ℤ → ℤ → Fin 9 → ℚ

/-- Scalar field over the grid (density). -/
abbrev SField := ℤ → ℤ → ℚ

/-- Vector field over the grid (velocity, x- and y-component). -/
abbrev VField := ℤ → ℤ → ℚ × ℚ

/-- Row 0 of `LATTICE_VELOCITIES` (source line 22): x-displacement of each
discrete velocity. -/
def LATTICE_VELOCITIES_X : Fin 9 → ℤ
  | 0 => 0 | 1 => 1 | 2 => 0 | 3 => -1 | 4 => 0
  | 5 => 1 | 6 => -1 | 7 => -1 | 8 => 1

/-- Row 1 of `LATTICE_VELOCITIES` (source line 23): y-displacement of each
discrete velocity. -/
def LATTICE_VELOCITIES_Y : Fin 9 → ℤ
  | 0 => 0 | 1 => 0 | 2 => 1 | 3 => 0 | 4 => -1
  | 5 => 1 | 6 => 1 | 7 => -1 | 8 => -1

/-- `OPPOSITE_LATTICE_INDICES` (source line 25). -/
def OPPOSITE_LATTICE_INDICES : Fin 9 → Fin 9
  | 0 => 0 | 1 => 3 | 2 => 4 | 3 => 1 | 4 => 2
  | 5 => 7 | 6 => 8 | 7 => 5 | 8 => 6

/-- `LATTICE_WEIGHTS` (source line 26). -/
def LATTICE_WEIGHTS : Fin 9 → ℚ
  | 0 => 4/9 | 1 => 1/9 | 2 => 1/9 | 3 => 1/9 | 4 => 1/9
  | 5 => 1/36 | 6 => 1/36 | 7 => 1/36 | 8 => 1/36

/-- `RIGHT_VELOCITIES` (source line 27). -/
def RIGHT_VELOCITIES : List (Fin 9) := [1, 5, 8]

/-- `LEFT_VELOCITIES` (source line 29). -/
def LEFT_VELOCITIES : List (Fin 9) := [3, 6, 7]

/-- `PURE_VERTICAL_VELOCITIES` (source line 31). -/
def PURE_VERTICAL_VELOCITIES : List (Fin 9) := [0, 2, 4]

/-- Sum of the components of a single cell's distribution over a direction
subset — the effect of `get_density` applied to a fancy-indexed slice such
as `f_prev[0, :, PURE_VERTICAL_VELOCITIES].T` (source lines 70-71). -/
def dirSum (l : List (Fin 9)) (g : Fin 9 → ℚ) : ℚ := (l.map g).sum

/-- `get_density` (source lines 34-35): per-cell sum over the 9 directions. -/
def get_density (f : LField) : SField := fun x y => ∑ i : Fin 9, f x y i

/-- `get_macroscopic_velocities` (source lines 37-38): per-cell momentum
divided by density. -/
def get_macroscopic_velocities (f : LField) (rho : SField) : VField :=
  fun x y =>
    ((∑ i : Fin 9, f x y i * (LATTICE_VELOCITIES_X i : ℚ)) / rho x y,
     (∑ i : Fin 9, f x y i * (LATTICE_VELOCITIES_Y i : ℚ)) / rho x y)

/-- `get_equilibrium_discrete_velocities` (source lines 40-44). -/
def get_equilibrium_discrete_velocities (u : VField) (rho : SField) : LField :=
  fun x y i =>
    rho x y * LATTICE_WEIGHTS i *
      (1 + 3 * ((LATTICE_VELOCITIES_X i : ℚ) * (u x y).1 +
                (LATTICE_VELOCITIES_Y i : ℚ) * (u x y).2)
         + 4.5 * ((LATTICE_VELOCITIES_X i : ℚ) * (u x y).1 +
                  (LATTICE_VELOCITIES_Y i : ℚ) * (u x y).2) ^ 2
         - 1.5 * ((u x y).1 ^ 2 + (u x y).2 ^ 2))

/-- `N_POINTS_X` (source line 10). -/
def N_POINTS_X : ℤ := 300

/-- `N_POINTS_Y` (source line 11). -/
def N_POINTS_Y : ℤ := 50

/-- `CYLINDER_CENTER_INDEX_X` (source line 12, floor division). -/
def CYLINDER_CENTER_INDEX_X : ℤ := N_POINTS_X / 5

/-- `CYLINDER_CENTER_INDEX_Y` (source line 13). -/
def CYLINDER_CENTER_INDEX_Y : ℤ := N_POINTS_Y / 2

/-- `CYLINDER_RADIUS_INDICES` (source line 14). -/
def CYLINDER_RADIUS_INDICES : ℤ := N_POINTS_Y / 9

/-- `MAX_HORIZONTAL_INFLOW_VELOCITY` (source line 15). -/
def MAX_HORIZONTAL_INFLOW_VELOCITY : ℚ := 0.04

/-- `REYNOLDS_NUMBER` (source line 9). -/
def REYNOLDS_NUMBER : ℚ := 80

/-- `nu` (source line 49), parameterized by the three configuration values. -/
def setup_nu (umax r re : ℚ) : ℚ := umax * r / re

/-- `omega` (source line 50). -/
def setup_omega (umax r re : ℚ) : ℚ := 1 / (3 * setup_nu umax r re + 0.5)

/-- Setup of the relaxation frequency as the source performs it (lines
49-50).  The result type is error-capable so that statements about
configuration-error reporting can be made; the source computes `omega`
unconditionally and contains no validation or error path, so the result is
always `Except.ok`. -/
def setup (umax r re : ℚ) : Except Unit ℚ := Except.ok (setup_omega umax r re)

/-- `obstacle_mask` (source lines 56-57).  The source compares
`sqrt((X-cx)^2 + (Y-cy)^2) < R`; since both sides are nonnegative this is
equivalent to comparing the squares, which keeps the definition in exact
integer arithmetic.  The equivalence with the square-root form is proved in
the C10 theorem below. -/
def obstacle_mask (x y : ℤ) : Bool :=
  decide ((x - CYLINDER_CENTER_INDEX_X) ^ 2 + (y - CYLINDER_CENTER_INDEX_Y) ^ 2
            < CYLINDER_RADIUS_INDICES ^ 2)

/-- `velocity_profile` (source lines 59-60): horizontal component
`MAX_HORIZONTAL_INFLOW_VELOCITY` everywhere, vertical component zero. -/
def velocity_profile : VField := fun _ _ => (MAX_HORIZONTAL_INFLOW_VELOCITY, 0)

/-- Outflow patch (source line 64): the three leftward-moving components of
the last column are overwritten with those of the second-to-last column. -/
def outflowPatch (Nx : ℤ) (f : LField) : LField :=
  fun x y i =>
    if x = Nx - 1 ∧ i ∈ LEFT_VELOCITIES then f (Nx - 2) y i else f x y i

/-- Inflow velocity overwrite (source line 68): the prescribed profile is
imposed at column 0 on rows `1 .. Ny-2` (python slice `1:-1`). -/
def inflowVelocity (Ny : ℤ) (prof : VField) (u : VField) : VField :=
  fun x y => if x = 0 ∧ 1 ≤ y ∧ y ≤ Ny - 2 then prof 0 y else u x y

/-- Zou/He inflow density (source lines 69-72): every row of column 0 gets
`(Σ pure-vertical f + 2 Σ leftward f) / (1 - u_x)`. -/
def inflowDensity (f : LField) (u : VField) (rho : SField) : SField :=
  fun x y =>
    if x = 0 then
      (dirSum PURE_VERTICAL_VELOCITIES (f 0 y) +
        2 * dirSum LEFT_VELOCITIES (f 0 y)) / (1 - (u 0 y).1)
    else rho x y

/-- Inflow equilibrium overwrite (source line 75): the three
rightward-moving components of column 0 are replaced by equilibrium
values. -/
def inflowEquilibriumPatch (f feq : LField) : LField :=
  fun x y i => if x = 0 ∧ i ∈ RIGHT_VELOCITIES then feq 0 y i else f x y i

/-- BGK collision (source line 77). -/
def collide (omega : ℚ) (f feq : LField) : LField :=
  fun x y i => f x y i - omega * (f x y i - feq x y i)

/-- Obstacle bounce-back (source lines 79-82): on masked cells every
direction receives the pre-collision value of the opposite direction; the
post-collision value survives elsewhere. -/
def bounceBack (mask : ℤ → ℤ → Bool) (fpre fpost : LField) : LField :=
  fun x y i =>
    if mask x y then fpre x y (OPPOSITE_LATTICE_INDICES i) else fpost x y i

/-- Streaming (source lines 84-92): `jnp.roll` of each direction's plane by
its displacement, i.e. periodic index remapping on both axes. -/
def stream (Nx Ny : ℤ) (f : LField) : LField :=
  fun x y i =>
    f ((x - LATTICE_VELOCITIES_X i) % Nx) ((y - LATTICE_VELOCITIES_Y i) % Ny) i

/-- The field after the outflow patch — the value bound to `f_prev` after
source line 64, and the first stage of `update`. -/
def fOut (Nx : ℤ) (f : LField) : LField := outflowPatch Nx f

/-- `rho` of source line 65. -/
def rhoPre (Nx : ℤ) (f : LField) : SField := get_density (fOut Nx f)

/-- `u` of source line 66. -/
def uPre (Nx : ℤ) (f : LField) : VField :=
  get_macroscopic_velocities (fOut Nx f) (rhoPre Nx f)

/-- `u` after the inflow overwrite of source line 68. -/
def uBC (Nx Ny : ℤ) (prof : VField) (f : LField) : VField :=
  inflowVelocity Ny prof (uPre Nx f)

/-- `rho` after the Zou/He recomputation of source lines 69-72. -/
def rhoBC (Nx Ny : ℤ) (prof : VField) (f : LField) : SField :=
  inflowDensity (fOut Nx f) (uBC Nx Ny prof f) (rhoPre Nx f)

/-- `feq` of source line 74, computed from the corrected `u` and `rho`. -/
def feqBC (Nx Ny : ℤ) (prof : VField) (f : LField) : LField :=
  get_equilibrium_discrete_velocities (uBC Nx Ny prof f) (rhoBC Nx Ny prof f)

/-- The value bound to `f_prev` after source line 75 — the pre-collision
field. -/
def fBC (Nx Ny : ℤ) (prof : VField) (f : LField) : LField :=
  inflowEquilibriumPatch (fOut Nx f) (feqBC Nx Ny prof f)

/-- `f_post` of source line 77. -/
def fPost (Nx Ny : ℤ) (omega : ℚ) (prof : VField) (f : LField) : LField :=
  collide omega (fBC Nx Ny prof f) (feqBC Nx Ny prof f)

/-- `f_post` after the bounce-back loop of source lines 79-82. -/
def fObst (Nx Ny : ℤ) (omega : ℚ) (mask : ℤ → ℤ → Bool) (prof : VField)
    (f : LField) : LField :=
  bounceBack mask (fBC Nx Ny prof f) (fPost Nx Ny omega prof f)

/-- `update` (source lines 62-92): one full timestep. -/
def update (Nx Ny : ℤ) (omega : ℚ) (mask : ℤ → ℤ → Bool) (prof : VField)
    (f : LField) : LField :=
  stream Nx Ny (fObst Nx Ny omega mask prof f)

/-- The source's equilibrium function applied to a zero velocity field and
a spatially uniform density `c`. -/
def uniformEquilibrium (c : ℚ) : LField :=
  get_equilibrium_discrete_velocities (fun _ _ => (0, 0)) (fun _ _ => c)

/-- A sample concrete distribution field used for witnesses. -/
def sampleF : LField :=
  fun x y i => (x : ℚ) + 10 * (y : ℚ) + 100 * ((i : ℕ) : ℚ) + 1

/-- Expansion of a 9-direction sum into its terms. -/
lemma sum_univ_nine (g : Fin 9 → ℚ) :
    ∑ i : Fin 9, g i = g 0 + g 1 + g 2 + g 3 + g 4 + g 5 + g 6 + g 7 + g 8 := by
  rw [Fin.sum_univ_castSucc, Fin.sum_univ_eight]
  rfl

/-- C8: direction 0 is the rest vector; the opposite-direction table is an
involution and negates the velocity vector; the weights sum to 1; the
weighted sum of direction vectors vanishes. -/
theorem lattice_constants_invariants :
    (LATTICE_VELOCITIES_X 0 = 0 ∧ LATTICE_VELOCITIES_Y 0 = 0) ∧
    (∀ i : Fin 9, OPPOSITE_LATTICE_INDICES (OPPOSITE_LATTICE_INDICES i) = i) ∧
    (∀ i : Fin 9,
      LATTICE_VELOCITIES_X (OPPOSITE_LATTICE_INDICES i) = - LATTICE_VELOCITIES_X i ∧
      LATTICE_VELOCITIES_Y (OPPOSITE_LATTICE_INDICES i) = - LATTICE_VELOCITIES_Y i) ∧
    (∑ i : Fin 9, LATTICE_WEIGHTS i = 1) ∧
    (∑ i : Fin 9, LATTICE_WEIGHTS i * (LATTICE_VELOCITIES_X i : ℚ) = 0) ∧
    (∑ i : Fin 9, LATTICE_WEIGHTS i * (LATTICE_VELOCITIES_Y i : ℚ) = 0) := by
  refine ⟨⟨rfl, rfl⟩, by decide, by decide, ?_, ?_, ?_⟩
  · rw [sum_univ_nine]
    simp only [LATTICE_WEIGHTS]
    norm_num
  · rw [sum_univ_nine]
    simp only [LATTICE_WEIGHTS, LATTICE_VELOCITIES_X]
    push_cast
    ring
  · rw [sum_univ_nine]
    simp only [LATTICE_WEIGHTS, LATTICE_VELOCITIES_Y]
    push_cast
    ring

/-- C4: the equilibrium function returns, at every cell and direction,
`rho * w_i * (1 + 3 (c_i . u) + 9/2 (c_i . u)^2 - 3/2 |u|^2)`; it is a pure
function of `(u, rho)` by construction. -/
theorem equilibrium_formula (u : VField) (rho : SField) (x y : ℤ) (i : Fin 9) :
    get_equilibrium_discrete_velocities u rho x y i =
      rho x y * LATTICE_WEIGHTS i *
        (1 + 3 * ((LATTICE_VELOCITIES_X i : ℚ) * (u x y).1 +
                  (LATTICE_VELOCITIES_Y i : ℚ) * (u x y).2)
           + (9 / 2) * ((LATTICE_VELOCITIES_X i : ℚ) * (u x y).1 +
                        (LATTICE_VELOCITIES_Y i : ℚ) * (u x y).2) ^ 2
           - (3 / 2) * ((u x y).1 ^ 2 + (u x y).2 ^ 2)) := by
  unfold get_equilibrium_discrete_velocities
  norm_num

/-- C7: the outflow patch copies the three leftward-moving components of
column `Nx-2` into column `Nx-1` and changes nothing else (all other
columns, and non-leftward components of the last column, are untouched).
It is the first stage of `update`. -/
theorem outflow_patch_frame (Nx : ℤ) (f : LField) (x y : ℤ) (i : Fin 9) :
    (x = Nx - 1 → i ∈ LEFT_VELOCITIES → fOut Nx f x y i = f (Nx - 2) y i) ∧
    (x ≠ Nx - 1 ∨ i ∉ LEFT_VELOCITIES → fOut Nx f x y i = f x y i) := by
  constructor
  · intro hx hi
    simp [fOut, outflowPatch, hx, hi]
  · intro h
    have hnot : ¬(x = Nx - 1 ∧ i ∈ LEFT_VELOCITIES) := by tauto
    simp [fOut, outflowPatch, hnot]

/-- Witness for C7 at the concrete grid width 300: the copied entry and a
frame entry. -/
theorem outflow_patch_frame_witness :
    fOut 300 sampleF 299 7 3 = sampleF 298 7 3 ∧
    fOut 300 sampleF 5 7 3 = sampleF 5 7 3 :=
  ⟨(outflow_patch_frame 300 sampleF 299 7 3).1 (by norm_num) (by decide),
   (outflow_patch_frame 300 sampleF 5 7 3).2 (Or.inl (by norm_num))⟩

/-- C1: in the inflow stage, the prescribed profile is imposed on the
velocity at column 0 for the interior rows; the column-0 density is the
Zou/He value `(Σ pure-vertical f + 2 Σ leftward f) / (1 - u_x)` at every
row (`f` being the outflow-patched field of that step); and the three
rightward components at column 0 are overwritten with equilibrium values
computed from the corrected `rho` and `u`. -/
theorem inflow_zou_he_spec (Nx Ny : ℤ) (prof : VField) (f : LField) (y : ℤ)
    (h1 : 1 ≤ y) (h2 : y ≤ Ny - 2) :
    uBC Nx Ny prof f 0 y = prof 0 y ∧
    (∀ z : ℤ, rhoBC Nx Ny prof f 0 z =
      (fOut Nx f 0 z 0 + fOut Nx f 0 z 2 + fOut Nx f 0 z 4 +
        2 * (fOut Nx f 0 z 3 + fOut Nx f 0 z 6 + fOut Nx f 0 z 7)) /
        (1 - (uBC Nx Ny prof f 0 z).1)) ∧
    (∀ z : ℤ, ∀ i ∈ RIGHT_VELOCITIES,
      fBC Nx Ny prof f 0 z i = feqBC Nx Ny prof f 0 z i) := by
  refine ⟨?_, ?_, ?_⟩
  · simp [uBC, inflowVelocity, h1, h2]
  · intro z
    simp only [rhoBC, inflowDensity, if_pos]
    simp [dirSum, PURE_VERTICAL_VELOCITIES, LEFT_VELOCITIES]
    ring_nf
  · intro z i hi
    simp [fBC, inflowEquilibriumPatch, hi]

/-- Witness for C1 at row 1 of a 50-row grid with the source's inflow
profile. -/
theorem inflow_zou_he_spec_witness :
    uBC 300 50 velocity_profile sampleF 0 1 = velocity_profile 0 1 ∧
    (∀ z : ℤ, rhoBC 300 50 velocity_profile sampleF 0 z =
      (fOut 300 sampleF 0 z 0 + fOut 300 sampleF 0 z 2 + fOut 300 sampleF 0 z 4 +
        2 * (fOut 300 sampleF 0 z 3 + fOut 300 sampleF 0 z 6 + fOut 300 sampleF 0 z 7)) /
        (1 - (uBC 300 50 velocity_profile sampleF 0 z).1)) ∧
    (∀ z : ℤ, ∀ i ∈ RIGHT_VELOCITIES,
      fBC 300 50 velocity_profile sampleF 0 z i =
        feqBC 300 50 velocity_profile sampleF 0 z i) :=
  inflow_zou_he_spec 300 50 velocity_profile sampleF 1 (by norm_num) (by norm_num)

/-- C9: the Zou/He density recomputation covers the corner rows of column 0
as well, and there the divisor `1 - u_x` uses the velocity extracted from
the distribution field (the profile overwrite excludes the corner rows). -/
theorem inflow_corner_rows_spec (Nx Ny : ℤ) (prof : VField) (f : LField)
    (y : ℤ) (h : y = 0 ∨ y = Ny - 1) :
    uBC Nx Ny prof f 0 y = uPre Nx f 0 y ∧
    rhoBC Nx Ny prof f 0 y =
      (dirSum PURE_VERTICAL_VELOCITIES (fOut Nx f 0 y) +
        2 * dirSum LEFT_VELOCITIES (fOut Nx f 0 y)) /
        (1 - (uPre Nx f 0 y).1) := by
  have hnot : ¬(1 ≤ y ∧ y ≤ Ny - 2) := by
    rcases h with h | h <;> (subst h; intro hc; omega)
  have hu : uBC Nx Ny prof f 0 y = uPre Nx f 0 y := by
    simp [uBC, inflowVelocity, hnot]
  refine ⟨hu, ?_⟩
  simp only [rhoBC, inflowDensity, if_pos, hu]

/-- Witness for C9 at the bottom corner row of a 50-row grid. -/
theorem inflow_corner_rows_spec_witness :
    uBC 300 50 velocity_profile sampleF 0 0 = uPre 300 sampleF 0 0 ∧
    rhoBC 300 50 velocity_profile sampleF 0 0 =
      (dirSum PURE_VERTICAL_VELOCITIES (fOut 300 sampleF 0 0) +
        2 * dirSum LEFT_VELOCITIES (fOut 300 sampleF 0 0)) /
        (1 - (uPre 300 sampleF 0 0).1) :=
  inflow_corner_rows_spec 300 50 velocity_profile sampleF 0 (Or.inl rfl)

/-- C2: on cells of the obstacle mask every one of the 9 directions
receives the pre-collision value of the opposite direction, overriding the
collision result; unmasked cells keep the collision result. -/
theorem obstacle_bounce_back_spec (Nx Ny : ℤ) (omega : ℚ)
    (mask : ℤ → ℤ → Bool) (prof : VField) (f : LField) (x y : ℤ) (i : Fin 9) :
    (mask x y = true →
      fObst Nx Ny omega mask prof f x y i =
        fBC Nx Ny prof f x y (OPPOSITE_LATTICE_INDICES i)) ∧
    (mask x y = false →
      fObst Nx Ny omega mask prof f x y i =
        fPost Nx Ny omega prof f x y i) := by
  constructor <;> intro hm <;> simp [fObst, bounceBack, hm]

/-- Witness for C2 with the source's cylinder mask: the cell (60, 25) is
inside the cylinder, the cell (0, 0) outside. -/
theorem obstacle_bounce_back_spec_witness :
    fObst 300 50 1 obstacle_mask velocity_profile sampleF 60 25 1 =
      fBC 300 50 velocity_profile sampleF 60 25 (OPPOSITE_LATTICE_INDICES 1) ∧
    fObst 300 50 1 obstacle_mask velocity_profile sampleF 0 0 1 =
      fPost 300 50 1 velocity_profile sampleF 0 0 1 :=
  ⟨(obstacle_bounce_back_spec 300 50 1 obstacle_mask velocity_profile sampleF
      60 25 1).1 (by decide),
   (obstacle_bounce_back_spec 300 50 1 obstacle_mask velocity_profile sampleF
      0 0 1).2 (by decide)⟩

/-- C3: a full `update` ends with streaming, which is pure periodic index
remapping of the post-bounce-back field on both axes; the remapped source
indices are the wrapped coordinates, lying inside the grid. -/
theorem streaming_periodic_remap (Nx Ny : ℤ) (hNx : 0 < Nx) (hNy : 0 < Ny)
    (omega : ℚ) (mask : ℤ → ℤ → Bool) (prof : VField) (f : LField)
    (x y : ℤ) (i : Fin 9) :
    update Nx Ny omega mask prof f x y i =
      fObst Nx Ny omega mask prof f ((x - LATTICE_VELOCITIES_X i) % Nx)
        ((y - LATTICE_VELOCITIES_Y i) % Ny) i ∧
    0 ≤ (x - LATTICE_VELOCITIES_X i) % Nx ∧
    (x - LATTICE_VELOCITIES_X i) % Nx < Nx ∧
    0 ≤ (y - LATTICE_VELOCITIES_Y i) % Ny ∧
    (y - LATTICE_VELOCITIES_Y i) % Ny < Ny :=
  ⟨rfl, Int.emod_nonneg _ (by omega), Int.emod_lt_of_pos _ hNx,
   Int.emod_nonneg _ (by omega), Int.emod_lt_of_pos _ hNy⟩

/-- Witness for C3 on the source's 300 by 50 grid at the origin cell in
direction 1, whose remapped x-index wraps to 299. -/
theorem streaming_periodic_remap_witness :
    update 300 50 1 obstacle_mask velocity_profile sampleF 0 0 1 =
      fObst 300 50 1 obstacle_mask velocity_profile sampleF
        ((0 - LATTICE_VELOCITIES_X 1) % 300) ((0 - LATTICE_VELOCITIES_Y 1) % 50) 1 ∧
    0 ≤ (0 - LATTICE_VELOCITIES_X 1) % 300 ∧
    (0 - LATTICE_VELOCITIES_X 1) % 300 < 300 ∧
    0 ≤ (0 - LATTICE_VELOCITIES_Y 1) % 50 ∧
    (0 - LATTICE_VELOCITIES_Y 1) % 50 < 50 :=
  streaming_periodic_remap 300 50 (by norm_num) (by norm_num) 1 obstacle_mask
    velocity_profile sampleF 0 0 1

/-- At zero velocity the equilibrium value is `c * w_i`. -/
lemma uniformEquilibrium_apply (c : ℚ) (x y : ℤ) (i : Fin 9) :
    uniformEquilibrium c x y i = c * LATTICE_WEIGHTS i := by
  unfold uniformEquilibrium get_equilibrium_discrete_velocities
  norm_num

/-- The density extracted from `uniformEquilibrium c` is `c`. -/
lemma density_uniformEquilibrium (c : ℚ) (x y : ℤ) :
    get_density (uniformEquilibrium c) x y = c := by
  unfold get_density
  rw [sum_univ_nine]
  simp only [uniformEquilibrium_apply, LATTICE_WEIGHTS]
  ring

/-- The velocity extracted from `uniformEquilibrium c` vanishes. -/
lemma velocity_uniformEquilibrium (c : ℚ) (x y : ℤ) :
    get_macroscopic_velocities (uniformEquilibrium c)
      (get_density (uniformEquilibrium c)) x y = (0, 0) := by
  unfold get_macroscopic_velocities
  have hx : ∑ i : Fin 9,
      uniformEquilibrium c x y i * (LATTICE_VELOCITIES_X i : ℚ) = 0 := by
    rw [sum_univ_nine]
    simp only [uniformEquilibrium_apply, LATTICE_WEIGHTS, LATTICE_VELOCITIES_X]
    push_cast
    ring
  have hy : ∑ i : Fin 9,
      uniformEquilibrium c x y i * (LATTICE_VELOCITIES_Y i : ℚ) = 0 := by
    rw [sum_univ_nine]
    simp only [uniformEquilibrium_apply, LATTICE_WEIGHTS, LATTICE_VELOCITIES_Y]
    push_cast
    ring
  rw [hx, hy]
  simp

/-- Recomputing the equilibrium from the extracted macroscopic fields of
`uniformEquilibrium c` reproduces `uniformEquilibrium c`. -/
lemma feq_uniformEquilibrium (c : ℚ) (x y : ℤ) (i : Fin 9) :
    get_equilibrium_discrete_velocities
      (get_macroscopic_velocities (uniformEquilibrium c)
        (get_density (uniformEquilibrium c)))
      (get_density (uniformEquilibrium c)) x y i =
      uniformEquilibrium c x y i := by
  conv_lhs => rw [get_equilibrium_discrete_velocities]
  rw [velocity_uniformEquilibrium, density_uniformEquilibrium,
    uniformEquilibrium_apply]
  norm_num

/-- C5: with zero velocity and uniform density, the equilibrium field is a
fixed point of collision (with the equilibrium recomputed from the
extracted macroscopic fields, as the source does) followed by periodic
streaming, with no obstacle cells and no inflow/outflow patching. -/
theorem equilibrium_fixed_point (Nx Ny : ℤ) (omega c : ℚ) (x y : ℤ)
    (i : Fin 9) :
    stream Nx Ny
      (bounceBack (fun _ _ => false) (uniformEquilibrium c)
        (collide omega (uniformEquilibrium c)
          (get_equilibrium_discrete_velocities
            (get_macroscopic_velocities (uniformEquilibrium c)
              (get_density (uniformEquilibrium c)))
            (get_density (uniformEquilibrium c)))))
      x y i = uniformEquilibrium c x y i := by
  unfold stream bounceBack collide
  simp only [Bool.false_eq_true, if_false]
  rw [feq_uniformEquilibrium, uniformEquilibrium_apply, uniformEquilibrium_apply]
  ring

/-- C6 counterexample: at the concrete configuration `U_max = 0.04`,
`R = 5`, `Re = -80` the computed relaxation frequency is `400/197`, which
lies outside `(0, 2)`, yet setup reports no error — the source contains no
validation at all. -/
theorem setup_no_range_check_counterexample :
    setup (0.04) 5 (-80) = Except.ok (400 / 197) ∧
    ¬(0 < (400 / 197 : ℚ) ∧ (400 / 197 : ℚ) < 2) := by
  constructor
  · simp only [setup, setup_omega, setup_nu, Except.ok.injEq]
    norm_num
  · intro hc
    have h2 := hc.2
    norm_num at h2

/-- C6 amended: the setup computes `omega = 1/(3 nu + 0.5)` with no
validation and never reports an error; nevertheless, for every positive
configuration `(U_max, R, Re)` the resulting `omega` automatically lies in
the open interval `(0, 2)`. -/
theorem setup_omega_unchecked_stable (umax r re : ℚ)
    (h1 : 0 < umax) (h2 : 0 < r) (h3 : 0 < re) :
    setup umax r re = Except.ok (setup_omega umax r re) ∧
    0 < setup_omega umax r re ∧ setup_omega umax r re < 2 := by
  have hnu : 0 < setup_nu umax r re := div_pos (mul_pos h1 h2) h3
  have hden : (0 : ℚ) < 3 * setup_nu umax r re + 0.5 := by
    norm_num
    linarith
  refine ⟨rfl, ?_, ?_⟩
  · unfold setup_omega
    exact one_div_pos.mpr hden
  · unfold setup_omega
    rw [div_lt_iff₀ hden]
    norm_num
    linarith

/-- Witness for C6's amended claim at the source's configuration
`U_max = 0.04`, `R = 5`, `Re = 80`. -/
theorem setup_omega_unchecked_stable_witness :
    setup (0.04) 5 80 = Except.ok (setup_omega (0.04) 5 80) ∧
    0 < setup_omega (0.04) 5 80 ∧ setup_omega (0.04) 5 80 < 2 :=
  setup_omega_unchecked_stable (0.04) 5 80 (by norm_num) (by norm_num)
    (by norm_num)

/-- C10: a cell is masked exactly when its Euclidean distance from the
cylinder center is strictly below the radius (the source's
`sqrt(dx^2 + dy^2) < R` comparison); the cell (65, 25) sits at distance
exactly the radius and is therefore fluid. -/
theorem obstacle_mask_strict_inequality :
    (∀ x y : ℤ, obstacle_mask x y = true ↔
      Real.sqrt (((x : ℝ) - (CYLINDER_CENTER_INDEX_X : ℝ)) ^ 2 +
        ((y : ℝ) - (CYLINDER_CENTER_INDEX_Y : ℝ)) ^ 2) <
        (CYLINDER_RADIUS_INDICES : ℝ)) ∧
    (65 - CYLINDER_CENTER_INDEX_X) ^ 2 + (25 - CYLINDER_CENTER_INDEX_Y) ^ 2 =
      CYLINDER_RADIUS_INDICES ^ 2 ∧
    obstacle_mask 65 25 = false := by
  refine ⟨?_, by decide, by decide⟩
  intro x y
  have hRz : (0 : ℤ) < CYLINDER_RADIUS_INDICES := by decide
  have hR : (0 : ℝ) < (CYLINDER_RADIUS_INDICES : ℝ) := by exact_mod_cast hRz
  rw [Real.sqrt_lt' hR]
  simp only [obstacle_mask, decide_eq_true_eq]
  constructor
  · intro h
    exact_mod_cast h
  · intro h
    exact_mod_cast h

end LBM
